import Mathlib

/-!
Shallow embedding of `src/backend/routers/announcements.py`, the announcements
router of the High School Management System API.

Announcement documents live in a MongoDB collection; teachers are looked up by
`_id` in a second collection for the authorization checks.  We model the
announcements collection as a list of documents together with the counter the
store uses to generate fresh `ObjectId`s, and the teachers collection as the
list of teacher identifiers.  ISO-8601 date strings are compared with plain
string comparison, exactly as the Python code and the MongoDB `$gte` query do.
Unhandled Python exceptions (the `bson.ObjectId` parse failure raised by
`ObjectId(announcement_id)` on a malformed id) are modelled as the error value
`ApiError.invalidId`, distinct from the `HTTPException`s the code raises.
-/

set_option autoImplicit false

namespace Announcements

/-- A document of the announcements collection, with `_id` already in its
string (24-hex) form.  `create_announcement` always stores `message`,
`end_date`, `created_by` and `created_at`; only `start_date` is optional. -/
structure Announcement where
  _id : String
  message : String
  start_date : Option String
  end_date : String
  created_by : String
  created_at : String
  deriving Repr, DecidableEq

/-- Request body of `POST /announcements` (pydantic model `AnnouncementCreate`). -/
structure AnnouncementCreate where
  message : String
  start_date : Option String := none
  end_date : String
  created_by : String
  deriving Repr, DecidableEq

/-- Request body of `PUT /announcements/{id}` (pydantic model
`AnnouncementUpdate`); a `none` field was not provided in the request. -/
structure AnnouncementUpdate where
  message : Option String := none
  start_date : Option String := none
  end_date : Option String := none
  deriving Repr, DecidableEq

/-- The errors an endpoint can surface: the three `HTTPException`s raised by
the code, plus the unhandled `bson.errors.InvalidId` exception escaping
`ObjectId(announcement_id)`. -/
inductive ApiError where
  | unauthorized   -- HTTPException 401 "Unauthorized"
  | badRequest     -- HTTPException 400 "No fields to update"
  | notFound       -- HTTPException 404 "Announcement not found"
  | invalidId      -- bson.errors.InvalidId, not caught by the router
  deriving Repr, DecidableEq

/-- The announcements collection: its documents in insertion order, plus the
counter from which the store derives the next generated `ObjectId`. -/
structure AnnouncementsCollection where
  docs : List Announcement
  nextOid : Nat
  deriving Repr, DecidableEq

deriving instance DecidableEq for Except

/-- The teachers collection, reduced to the list of teacher `_id`s, which is
all the router consults (`teachers_collection.find_one({"_id": username})`). -/
def teacherExists (teachers : List String) (username : String) : Bool :=
  teachers.contains username

/-- Python truthiness of `announcement.get("start_date")`: `None` and the
empty string are falsy. -/
def pyTruthy : Option String → Bool
  | none => false
  | some s => s ≠ ""

/-- The sixteen lowercase hexadecimal digit characters, indexed 0..15. -/
def hexDigit (n : Nat) : Char :=
  "0123456789abcdef".toList.getD n '0'

/-- The 24-character lowercase hex string of the `ObjectId` the store
generates from its counter (MongoDB `ObjectId`s are 12 bytes, rendered as 24
hex digits). -/
def genHexId (n : Nat) : String :=
  String.mk ((List.range 24).map (fun i => hexDigit (n / 16 ^ (23 - i) % 16)))

/-- A character `bson.ObjectId` accepts in an id string. -/
def isHexChar (c : Char) : Bool :=
  c.isDigit || ('a' ≤ c && c ≤ 'f') || ('A' ≤ c && c ≤ 'F')

/-- `bson.ObjectId(s)` succeeds exactly on 24-character hex strings. -/
def isValidObjectId (s : String) : Bool :=
  s.length == 24 && s.data.all isHexChar

/-- Lowercasing of a hex id string, character by character
(`str(ObjectId(s))` renders the id in lowercase hex, so two id strings
denote the same `ObjectId` iff they agree up to hex-digit case). -/
def hexLower (s : String) : String :=
  String.mk (s.data.map Char.toLower)

/-- `bson.ObjectId(s)`: the parsed id in its canonical (lowercase) string
form, or `none` when the constructor raises `InvalidId`. -/
def parseObjectId (s : String) : Option String :=
  if isValidObjectId s then some (hexLower s) else none

/-- `GET /announcements/active` (`get_active_announcements`): the store query
`{"end_date": {"$gte": now}}` followed by the Python loop that keeps a
document when `start_date` is falsy or `start_date <= now`.  No
authentication, no writes. -/
def get_active_announcements (now : String) (store : AnnouncementsCollection) :
    List Announcement :=
  let announcements := store.docs.filter (fun a => decide (now ≤ a.end_date))
  announcements.filter (fun a =>
    if pyTruthy a.start_date then decide (a.start_date.getD "" ≤ now) else true)

/-- `GET /announcements` (`get_all_announcements`): 401 unless `username` is a
teacher `_id`; otherwise every document, unfiltered.  The endpoint performs no
writes, so the collection is returned unchanged. -/
def get_all_announcements (username : String) (teachers : List String)
    (store : AnnouncementsCollection) :
    Except ApiError (List Announcement) × AnnouncementsCollection :=
  if teacherExists teachers username then
    (.ok store.docs, store)
  else
    (.error .unauthorized, store)

/-- `POST /announcements` (`create_announcement`): 401 unless `created_by` is
a teacher `_id`; otherwise builds the document with `created_at = now`,
inserts it (the store assigns the generated `ObjectId`), and returns the
document with its `_id` stringified. -/
def create_announcement (announcement : AnnouncementCreate) (now : String)
    (teachers : List String) (store : AnnouncementsCollection) :
    Except ApiError Announcement × AnnouncementsCollection :=
  if teacherExists teachers announcement.created_by then
    let doc : Announcement :=
      { _id := genHexId store.nextOid
        message := announcement.message
        start_date := announcement.start_date
        end_date := announcement.end_date
        created_by := announcement.created_by
        created_at := now }
    (.ok doc, { docs := store.docs ++ [doc], nextOid := store.nextOid + 1 })
  else
    (.error .unauthorized, store)

/-- The `"$set"` document built by `update_announcement`, applied to a stored
document: exactly the fields provided (non-`None`) in the request body are
overwritten. -/
def applyPatch (patch : AnnouncementUpdate) (a : Announcement) : Announcement :=
  { a with
    message := match patch.message with
      | some m => m
      | none => a.message
    start_date := match patch.start_date with
      | some s => some s
      | none => a.start_date
    end_date := match patch.end_date with
      | some e => e
      | none => a.end_date }

/-- `update_doc` is empty: no field of the request body was provided. -/
def patchIsEmpty (patch : AnnouncementUpdate) : Bool :=
  patch.message.isNone && patch.start_date.isNone && patch.end_date.isNone

/-- `announcements_collection.update_one({"_id": oid}, {"$set": ...})`
followed by the `find_one` re-read: applies `f` to the first document whose
`_id` is `oid`, returning the updated document (or `none` when
`matched_count == 0`) and the new document list. -/
def updateFirst (oid : String) (f : Announcement → Announcement) :
    List Announcement → Option Announcement × List Announcement
  | [] => (none, [])
  | a :: rest =>
    if a._id = oid then
      (some (f a), f a :: rest)
    else
      let r := updateFirst oid f rest
      (r.1, a :: r.2)

/-- `announcements_collection.delete_one({"_id": oid})`: removes the first
document whose `_id` is `oid`, returning it (or `none` when
`deleted_count == 0`) and the remaining documents. -/
def deleteFirst (oid : String) :
    List Announcement → Option Announcement × List Announcement
  | [] => (none, [])
  | a :: rest =>
    if a._id = oid then
      (some a, rest)
    else
      let r := deleteFirst oid rest
      (r.1, a :: r.2)

/-- `PUT /announcements/{announcement_id}` (`update_announcement`): 401 unless
`username` is a teacher `_id`; then the `"$set"` document is built and, if
empty, 400 is raised before the id is ever parsed or looked up; then
`ObjectId(announcement_id)` parses the id (raising `InvalidId` on a malformed
string); then `update_one` runs and 404 is raised when it matched nothing;
otherwise the updated document is re-read and returned. -/
def update_announcement (announcement_id : String)
    (announcement : AnnouncementUpdate) (username : String)
    (teachers : List String) (store : AnnouncementsCollection) :
    Except ApiError Announcement × AnnouncementsCollection :=
  if teacherExists teachers username then
    if patchIsEmpty announcement then
      (.error .badRequest, store)
    else
      match parseObjectId announcement_id with
      | none => (.error .invalidId, store)
      | some oid =>
        let r := updateFirst oid (applyPatch announcement) store.docs
        match r.1 with
        | none => (.error .notFound, { store with docs := r.2 })
        | some updated => (.ok updated, { store with docs := r.2 })
  else
    (.error .unauthorized, store)

/-- The success acknowledgment body of `DELETE /announcements/{id}`. -/
def deleteAck : String := "Announcement deleted successfully"

/-- `DELETE /announcements/{announcement_id}` (`delete_announcement`): 401
unless `username` is a teacher `_id`; then `ObjectId(announcement_id)` parses
the id (raising `InvalidId` on a malformed string); then `delete_one` runs and
404 is raised when it deleted nothing; otherwise the acknowledgment message is
returned. -/
def delete_announcement (announcement_id : String) (username : String)
    (teachers : List String) (store : AnnouncementsCollection) :
    Except ApiError String × AnnouncementsCollection :=
  if teacherExists teachers username then
    match parseObjectId announcement_id with
    | none => (.error .invalidId, store)
    | some oid =>
      let r := deleteFirst oid store.docs
      match r.1 with
      | none => (.error .notFound, { store with docs := r.2 })
      | some _ => (.ok deleteAck, { store with docs := r.2 })
  else
    (.error .unauthorized, store)

/-- A sequence of requests to the update endpoint — each one an
`(announcement_id, patch, username)` triple — applied in order to the store.
Requests that fail leave the store as they found it. -/
def runUpdates (teachers : List String)
    (events : List (String × AnnouncementUpdate × String))
    (store : AnnouncementsCollection) : AnnouncementsCollection :=
  events.foldl
    (fun s ev => (update_announcement ev.1 ev.2.1 ev.2.2 teachers s).2) store

/-- Relation between a stored document and its later version: the identifier
is unchanged and a populated (non-null) `start_date` stays populated.
`message` and `end_date` are total `String` fields of every stored document —
`create` requires them and `update` only overwrites them — so only
`start_date` could even in principle be cleared. -/
def keepsDates (a b : Announcement) : Prop :=
  a._id = b._id ∧ (a.start_date.isSome = true → b.start_date.isSome = true)

/-! ### Helper lemmas -/

/-- The empty string is `≤` every string in the lexicographic order Python and
the model share. -/
theorem str_empty_le (s : String) : "" ≤ s := by
  rw [String.le_iff_toList_le]
  exact List.nil_le

/-- The store-generated id string always has 24 characters. -/
theorem genHexId_length (n : Nat) : (genHexId n).length = 24 := by
  simp [genHexId, String.length]

/-- The store-generated id string is never empty. -/
theorem genHexId_ne_empty (n : Nat) : genHexId n ≠ "" := by
  intro h
  have := genHexId_length n
  rw [h] at this
  simp at this

/-! ### Theorems for the claims -/

/-- C1: for every announcement in the store, `list_active` returns it iff its
`end_date` compares `>=` the current time as a string and (its `start_date` is
absent or its `start_date` compares `<=` the current time), both bounds
inclusive. -/
theorem C1_list_active_iff_in_window (now : String) (store : AnnouncementsCollection)
    (a : Announcement) :
    a ∈ get_active_announcements now store ↔
      a ∈ store.docs ∧ now ≤ a.end_date ∧
        (a.start_date = none ∨ ∃ s, a.start_date = some s ∧ s ≤ now) := by
  unfold get_active_announcements
  simp only [List.mem_filter, decide_eq_true_eq, and_assoc]
  constructor
  · rintro ⟨hmem, hend, hstart⟩
    refine ⟨hmem, hend, ?_⟩
    cases hsd : a.start_date with
    | none => exact Or.inl rfl
    | some s =>
      refine Or.inr ⟨s, rfl, ?_⟩
      rw [hsd] at hstart
      by_cases hs : s = ""
      · subst hs
        exact str_empty_le now
      · simpa [pyTruthy, hs] using hstart
  · rintro ⟨hmem, hend, hstart⟩
    refine ⟨hmem, hend, ?_⟩
    cases hsd : a.start_date with
    | none => simp [pyTruthy, hsd]
    | some s =>
      rcases hstart with h | ⟨s', hs', hle⟩
      · rw [hsd] at h
        cases h
      · rw [hsd] at hs'
        cases hs'
        by_cases hs : s = ""
        · simp [pyTruthy, hsd, hs]
        · simp [pyTruthy, hsd, hs, hle]

/-- C2: `list_all` fails with Unauthorized exactly when the username resolves
to no teacher record; when a teacher exists it returns every announcement in
the store, unfiltered. -/
theorem C2_list_all_auth (username : String) (teachers : List String)
    (store : AnnouncementsCollection) :
    (get_all_announcements username teachers store = (.error .unauthorized, store) ↔
      teacherExists teachers username = false) ∧
    (teacherExists teachers username = true →
      get_all_announcements username teachers store = (.ok store.docs, store)) := by
  unfold get_all_announcements
  cases h : teacherExists teachers username <;> simp [h]

/-- C2 witness: with teacher `"t"` registered, `list_all` by `"t"` succeeds
and returns the whole (empty) store. -/
theorem C2_list_all_auth_witness :
    get_all_announcements "t" ["t"] ⟨[], 0⟩ = (.ok [], ⟨[], 0⟩) :=
  (C2_list_all_auth "t" ["t"] ⟨[], 0⟩).2 rfl

/-- C3: `create` with an authorized `created_by` inserts exactly one record
carrying the request's `message`, `start_date`, `end_date` and `created_by`,
with `created_at` set to the current time, and returns that full record
including the store-generated identifier; with an unknown `created_by` it
fails Unauthorized. -/
theorem C3_create_inserts_record (req : AnnouncementCreate) (now : String)
    (teachers : List String) (store : AnnouncementsCollection) :
    (teacherExists teachers req.created_by = false →
      create_announcement req now teachers store = (.error .unauthorized, store)) ∧
    (teacherExists teachers req.created_by = true →
      ∃ doc : Announcement,
        create_announcement req now teachers store =
          (.ok doc, { docs := store.docs ++ [doc], nextOid := store.nextOid + 1 }) ∧
        doc.message = req.message ∧ doc.start_date = req.start_date ∧
        doc.end_date = req.end_date ∧ doc.created_by = req.created_by ∧
        doc.created_at = now ∧ doc._id = genHexId store.nextOid) := by
  unfold create_announcement
  cases h : teacherExists teachers req.created_by <;> simp [h]

/-- C3 witness: teacher `"t"` creates an announcement; the store gains exactly
that record and all returned fields match the request. -/
theorem C3_create_inserts_record_witness :
    ∃ doc : Announcement,
      create_announcement ⟨"hello", none, "2026-12-31", "t"⟩ "2026-10-12" ["t"] ⟨[], 5⟩ =
        (.ok doc, { docs := [] ++ [doc], nextOid := 5 + 1 }) ∧
      doc.message = "hello" ∧ doc.start_date = none ∧
      doc.end_date = "2026-12-31" ∧ doc.created_by = "t" ∧
      doc.created_at = "2026-10-12" ∧ doc._id = genHexId 5 :=
  (C3_create_inserts_record ⟨"hello", none, "2026-12-31", "t"⟩ "2026-10-12" ["t"] ⟨[], 5⟩).2 rfl

/-- `update_one` matches nothing when no stored document carries the id, and
then writes nothing. -/
theorem updateFirst_no_match (oid : String) (f : Announcement → Announcement)
    (docs : List Announcement) (h : ∀ a ∈ docs, a._id ≠ oid) :
    updateFirst oid f docs = (none, docs) := by
  induction docs with
  | nil => rfl
  | cons a rest ih =>
    simp only [updateFirst]
    rw [if_neg (h a (List.mem_cons_self a rest))]
    rw [ih (fun b hb => h b (List.mem_cons_of_mem a hb))]

/-- `delete_one` deletes nothing when no stored document carries the id. -/
theorem deleteFirst_no_match (oid : String) (docs : List Announcement)
    (h : ∀ a ∈ docs, a._id ≠ oid) :
    deleteFirst oid docs = (none, docs) := by
  induction docs with
  | nil => rfl
  | cons a rest ih =>
    simp only [deleteFirst]
    rw [if_neg (h a (List.mem_cons_self a rest))]
    rw [ih (fun b hb => h b (List.mem_cons_of_mem a hb))]

/-- C4 counterexample: teacher `"t"`, non-empty patch, id `"x"`, empty store.
No announcement matches `"x"`, yet `update` fails with the identifier-parse
error, not NotFound, refuting the claim as stated. -/
theorem C4_counterexample :
    patchIsEmpty ⟨some "m", none, none⟩ = false ∧
    (⟨[], 0⟩ : AnnouncementsCollection).docs = [] ∧
    update_announcement "x" ⟨some "m", none, none⟩ "t" ["t"] ⟨[], 0⟩ =
      (.error .invalidId, ⟨[], 0⟩) ∧
    ApiError.invalidId ≠ ApiError.notFound := by
  refine ⟨rfl, rfl, rfl, ?_⟩
  decide

/-- C4 amended: with an authorized username, an empty patch fails BadRequest
before the id is parsed or looked up (so an empty patch on any id — malformed
or nonexistent — yields BadRequest); a non-empty patch on an id that does not
parse as a 24-hex ObjectId fails with the identifier-parse error; a non-empty
patch on an id that parses but matches no announcement fails NotFound. -/
theorem C4_update_errors (id : String) (patch : AnnouncementUpdate)
    (username : String) (teachers : List String) (store : AnnouncementsCollection)
    (hauth : teacherExists teachers username = true) :
    (patchIsEmpty patch = true →
      update_announcement id patch username teachers store = (.error .badRequest, store)) ∧
    (patchIsEmpty patch = false → isValidObjectId id = false →
      update_announcement id patch username teachers store = (.error .invalidId, store)) ∧
    (patchIsEmpty patch = false → isValidObjectId id = true →
      (∀ a ∈ store.docs, a._id ≠ hexLower id) →
      update_announcement id patch username teachers store = (.error .notFound, store)) := by
  refine ⟨?_, ?_, ?_⟩
  · intro hempty
    simp [update_announcement, hauth, hempty]
  · intro hempty hinvalid
    simp [update_announcement, hauth, hempty, parseObjectId, hinvalid]
  · intro hempty hvalid hnomatch
    simp only [update_announcement, hauth, if_true, hempty, Bool.false_eq_true, if_false,
      parseObjectId, hvalid, if_pos]
    rw [updateFirst_no_match _ _ _ hnomatch]

/-- C4 amended witness: teacher `"t"`, empty store. An empty patch on the
malformed id `"x"` yields BadRequest; a non-empty patch on `"x"` yields the
parse error; a non-empty patch on a well-formed but unknown id yields
NotFound. -/
theorem C4_update_errors_witness :
    update_announcement "x" ⟨none, none, none⟩ "t" ["t"] ⟨[], 0⟩ =
      (.error .badRequest, ⟨[], 0⟩) ∧
    update_announcement "x" ⟨some "m", none, none⟩ "t" ["t"] ⟨[], 0⟩ =
      (.error .invalidId, ⟨[], 0⟩) ∧
    update_announcement "000000000000000000000000" ⟨some "m", none, none⟩ "t" ["t"] ⟨[], 0⟩ =
      (.error .notFound, ⟨[], 0⟩) :=
  ⟨(C4_update_errors "x" ⟨none, none, none⟩ "t" ["t"] ⟨[], 0⟩ rfl).1 rfl,
   (C4_update_errors "x" ⟨some "m", none, none⟩ "t" ["t"] ⟨[], 0⟩ rfl).2.1 rfl rfl,
   (C4_update_errors "000000000000000000000000" ⟨some "m", none, none⟩ "t" ["t"] ⟨[], 0⟩
      rfl).2.2 rfl (by decide) (by simp)⟩

/-- When `update_one` matched a document, the document list splits as the
unmatched head, the first match (to which the `"$set"` is applied), and the
untouched tail. -/
theorem updateFirst_some_decomp (oid : String) (f : Announcement → Announcement)
    (docs : List Announcement) (docs' : List Announcement) (d : Announcement)
    (h : updateFirst oid f docs = (some d, docs')) :
    ∃ pre a post, docs = pre ++ a :: post ∧ docs' = pre ++ f a :: post ∧
      d = f a ∧ a._id = oid ∧ ∀ b ∈ pre, b._id ≠ oid := by
  induction docs generalizing docs' with
  | nil => simp [updateFirst] at h
  | cons a rest ih =>
    by_cases hid : a._id = oid
    · simp only [updateFirst, if_pos hid] at h
      have h1 := congrArg Prod.fst h
      have h2 := congrArg Prod.snd h
      simp only at h1 h2
      refine ⟨[], a, rest, rfl, ?_, ?_, hid, by simp⟩
      · simpa using h2.symm
      · injection h1 with h1
        exact h1.symm
    · simp only [updateFirst, if_neg hid] at h
      have h1 : (updateFirst oid f rest).1 = some d := congrArg Prod.fst h
      have h2 : docs' = a :: (updateFirst oid f rest).2 := (congrArg Prod.snd h).symm
      have hpair : updateFirst oid f rest = (some d, (updateFirst oid f rest).2) := by
        rw [← h1]
      obtain ⟨pre, b, post, e1, e2, e3, e4, e5⟩ := ih (updateFirst oid f rest).2 hpair
      refine ⟨a :: pre, b, post, by simp [e1], by simp [h2, e2], e3, e4, ?_⟩
      intro c hc
      rcases List.mem_cons.mp hc with rfl | hc2
      · exact hid
      · exact e5 c hc2

/-- C5: a successful update changes only the patched fields of the single
matched announcement: fields not provided in the patch keep their prior
value, `created_by` and `created_at` are never changed, and every other
announcement in the store (and the store's id counter) is left untouched. -/
theorem C5_update_frame (id : String) (patch : AnnouncementUpdate)
    (username : String) (teachers : List String) (store : AnnouncementsCollection)
    (doc : Announcement) (store' : AnnouncementsCollection)
    (h : update_announcement id patch username teachers store = (.ok doc, store')) :
    store'.nextOid = store.nextOid ∧
    ∃ pre a post, store.docs = pre ++ a :: post ∧ store'.docs = pre ++ doc :: post ∧
      doc.created_by = a.created_by ∧ doc.created_at = a.created_at ∧
      (patch.message = none → doc.message = a.message) ∧
      (patch.start_date = none → doc.start_date = a.start_date) ∧
      (patch.end_date = none → doc.end_date = a.end_date) := by
  simp only [update_announcement] at h
  split at h
  case isFalse => exact absurd h (by simp)
  split at h
  case isTrue => exact absurd h (by simp)
  split at h
  case h_1 => exact absurd h (by simp)
  case h_2 oid hoid =>
  split at h
  case h_1 => exact absurd h (by simp)
  case h_2 updated hup =>
  have hdoc : updated = doc := by
    have := congrArg Prod.fst h
    simpa using this
  have hstore : store' = { store with docs := (updateFirst oid (applyPatch patch) store.docs).2 } :=
    (congrArg Prod.snd h).symm
  subst hdoc
  have hpair : updateFirst oid (applyPatch patch) store.docs =
      (some updated, (updateFirst oid (applyPatch patch) store.docs).2) := by
    rw [← hup]
  obtain ⟨pre, a, post, e1, e2, e3, e4, e5⟩ :=
    updateFirst_some_decomp oid (applyPatch patch) store.docs _ updated hpair
  refine ⟨by rw [hstore], pre, a, post, e1, ?_, ?_, ?_, ?_, ?_, ?_⟩
  · rw [hstore, e2, e3]
  · rw [e3]
    rfl
  · rw [e3]
    rfl
  · intro hm
    rw [e3]
    simp [applyPatch, hm]
  · intro hs
    rw [e3]
    simp [applyPatch, hs]
  · intro he
    rw [e3]
    simp [applyPatch, he]

/-- C5 witness: teacher `"t"` patches only `message` of the single stored
announcement; the other fields and the rest of the store are untouched. -/
theorem C5_update_frame_witness :
    (⟨[⟨"000000000000000000000000", "new", none, "2027-01-01", "t", "2026-01-01"⟩], 1⟩ :
        AnnouncementsCollection).nextOid =
      (⟨[⟨"000000000000000000000000", "old", none, "2027-01-01", "t", "2026-01-01"⟩], 1⟩ :
        AnnouncementsCollection).nextOid ∧
    ∃ pre a post,
      (⟨[⟨"000000000000000000000000", "old", none, "2027-01-01", "t", "2026-01-01"⟩], 1⟩ :
          AnnouncementsCollection).docs = pre ++ a :: post ∧
      (⟨[⟨"000000000000000000000000", "new", none, "2027-01-01", "t", "2026-01-01"⟩], 1⟩ :
          AnnouncementsCollection).docs =
        pre ++ (⟨"000000000000000000000000", "new", none, "2027-01-01", "t", "2026-01-01"⟩ :
          Announcement) :: post ∧
      (⟨"000000000000000000000000", "new", none, "2027-01-01", "t", "2026-01-01"⟩ :
          Announcement).created_by = a.created_by ∧
      (⟨"000000000000000000000000", "new", none, "2027-01-01", "t", "2026-01-01"⟩ :
          Announcement).created_at = a.created_at ∧
      ((some "new" : Option String) = none →
        (⟨"000000000000000000000000", "new", none, "2027-01-01", "t", "2026-01-01"⟩ :
          Announcement).message = a.message) ∧
      ((none : Option String) = none →
        (⟨"000000000000000000000000", "new", none, "2027-01-01", "t", "2026-01-01"⟩ :
          Announcement).start_date = a.start_date) ∧
      ((none : Option String) = none →
        (⟨"000000000000000000000000", "new", none, "2027-01-01", "t", "2026-01-01"⟩ :
          Announcement).end_date = a.end_date) :=
  C5_update_frame "000000000000000000000000" ⟨some "new", none, none⟩ "t" ["t"]
    ⟨[⟨"000000000000000000000000", "old", none, "2027-01-01", "t", "2026-01-01"⟩], 1⟩
    ⟨"000000000000000000000000", "new", none, "2027-01-01", "t", "2026-01-01"⟩
    ⟨[⟨"000000000000000000000000", "new", none, "2027-01-01", "t", "2026-01-01"⟩], 1⟩
    (by decide)

/-- `delete_one` removes exactly the first matching document and nothing
else. -/
theorem deleteFirst_first_match (oid : String) (pre : List Announcement)
    (a : Announcement) (post : List Announcement)
    (hpre : ∀ b ∈ pre, b._id ≠ oid) (ha : a._id = oid) :
    deleteFirst oid (pre ++ a :: post) = (some a, pre ++ post) := by
  induction pre with
  | nil => simp [deleteFirst, ha]
  | cons b rest ih =>
    simp only [List.cons_append, deleteFirst, List.append_eq]
    rw [if_neg (hpre b (List.mem_cons_self b rest))]
    rw [ih (fun c hc => hpre c (List.mem_cons_of_mem b hc))]

/-- C6 counterexample: teacher `"t"`, id `"x"`, empty store.  No announcement
matches `"x"`, yet `delete` fails with the identifier-parse error, not
NotFound, refuting the claim as stated. -/
theorem C6_counterexample :
    (⟨[], 0⟩ : AnnouncementsCollection).docs = [] ∧
    delete_announcement "x" "t" ["t"] ⟨[], 0⟩ = (.error .invalidId, ⟨[], 0⟩) ∧
    ApiError.invalidId ≠ ApiError.notFound := by
  refine ⟨rfl, rfl, ?_⟩
  decide

/-- C6 amended: with an authorized username and an id that parses as a 24-hex
ObjectId, `delete` removes exactly the first matching record (all others
unchanged) and returns the success acknowledgment, and a second delete of the
same id then fails NotFound; when the id parses but matches nothing it fails
NotFound; when the id does not parse it fails with the identifier-parse
error instead. -/
theorem C6_delete_removes_record (id : String) (username : String)
    (teachers : List String) (store : AnnouncementsCollection)
    (hauth : teacherExists teachers username = true) :
    (isValidObjectId id = false →
      delete_announcement id username teachers store = (.error .invalidId, store)) ∧
    (isValidObjectId id = true → (∀ a ∈ store.docs, a._id ≠ hexLower id) →
      delete_announcement id username teachers store = (.error .notFound, store)) ∧
    (isValidObjectId id = true → ∀ pre a post,
      store.docs = pre ++ a :: post → a._id = hexLower id →
      (∀ b ∈ pre, b._id ≠ hexLower id) →
      delete_announcement id username teachers store =
        (.ok deleteAck, { store with docs := pre ++ post }) ∧
      ((∀ b ∈ pre ++ post, b._id ≠ hexLower id) →
        delete_announcement id username teachers { store with docs := pre ++ post } =
          (.error .notFound, { store with docs := pre ++ post }))) := by
  refine ⟨?_, ?_, ?_⟩
  · intro hinvalid
    simp [delete_announcement, hauth, parseObjectId, hinvalid]
  · intro hvalid hnomatch
    simp only [delete_announcement, hauth, if_true, parseObjectId, hvalid, if_pos]
    rw [deleteFirst_no_match _ _ hnomatch]
  · intro hvalid pre a post hsplit ha hpre
    constructor
    · simp only [delete_announcement, hauth, if_true, parseObjectId, hvalid, if_pos, hsplit]
      rw [deleteFirst_first_match _ _ _ _ hpre ha]
    · intro hrest
      simp only [delete_announcement, hauth, if_true, parseObjectId, hvalid, if_pos]
      rw [deleteFirst_no_match _ _ hrest]

/-- C6 amended witness: teacher `"t"` deletes the only stored announcement by
its 24-hex id, receiving the acknowledgment; deleting the same id again fails
NotFound. -/
theorem C6_delete_removes_record_witness :
    delete_announcement "000000000000000000000000" "t" ["t"]
      ⟨[⟨"000000000000000000000000", "m", none, "2027-01-01", "t", "2026-01-01"⟩], 3⟩ =
      (.ok deleteAck, ⟨[], 3⟩) ∧
    delete_announcement "000000000000000000000000" "t" ["t"] ⟨[], 3⟩ =
      (.error .notFound, ⟨[], 3⟩) := by
  have h := (C6_delete_removes_record "000000000000000000000000" "t" ["t"]
      ⟨[⟨"000000000000000000000000", "m", none, "2027-01-01", "t", "2026-01-01"⟩], 3⟩ rfl).2.2
      (by decide) []
      ⟨"000000000000000000000000", "m", none, "2027-01-01", "t", "2026-01-01"⟩ []
      rfl (by decide) (by simp)
  exact ⟨h.1, h.2 (by simp)⟩

/-- When `update_one` matched nothing it wrote nothing. -/
theorem updateFirst_none_eq (oid : String) (f : Announcement → Announcement)
    (docs : List Announcement) (h : (updateFirst oid f docs).1 = none) :
    (updateFirst oid f docs).2 = docs := by
  induction docs with
  | nil => rfl
  | cons a rest ih =>
    by_cases hid : a._id = oid
    · simp [updateFirst, hid] at h
    · simp only [updateFirst, if_neg hid] at h ⊢
      rw [ih h]

/-- When `delete_one` deleted nothing it removed nothing. -/
theorem deleteFirst_none_eq (oid : String) (docs : List Announcement)
    (h : (deleteFirst oid docs).1 = none) :
    (deleteFirst oid docs).2 = docs := by
  induction docs with
  | nil => rfl
  | cons a rest ih =>
    by_cases hid : a._id = oid
    · simp [deleteFirst, hid] at h
    · simp only [deleteFirst, if_neg hid] at h ⊢
      rw [ih h]

/-- `list_all` never writes to the store. -/
theorem get_all_announcements_preserves_store (username : String)
    (teachers : List String) (store : AnnouncementsCollection) :
    (get_all_announcements username teachers store).2 = store := by
  unfold get_all_announcements
  split <;> rfl

/-- A `create` that returned an error wrote nothing. -/
theorem create_error_preserves_store (req : AnnouncementCreate) (now : String)
    (teachers : List String) (store : AnnouncementsCollection) (e : ApiError)
    (h : (create_announcement req now teachers store).1 = .error e) :
    (create_announcement req now teachers store).2 = store := by
  cases hauth : teacherExists teachers req.created_by
  · simp [create_announcement, hauth]
  · simp [create_announcement, hauth] at h

/-- An `update` that returned an error wrote nothing. -/
theorem update_error_preserves_store (id : String) (patch : AnnouncementUpdate)
    (username : String) (teachers : List String) (store : AnnouncementsCollection)
    (e : ApiError)
    (h : (update_announcement id patch username teachers store).1 = .error e) :
    (update_announcement id patch username teachers store).2 = store := by
  cases hauth : teacherExists teachers username
  · simp [update_announcement, hauth]
  · cases hempty : patchIsEmpty patch
    · cases hp : parseObjectId id with
      | none => simp [update_announcement, hauth, hempty, hp]
      | some oid =>
        cases hr : (updateFirst oid (applyPatch patch) store.docs).1 with
        | none =>
          simp only [update_announcement, hauth, hempty, hp, hr, Bool.false_eq_true,
            if_false, if_true]
          rw [updateFirst_none_eq _ _ _ hr]
        | some d =>
          simp [update_announcement, hauth, hempty, hp, hr] at h
    · simp [update_announcement, hauth, hempty]

/-- A `delete` that returned an error wrote nothing. -/
theorem delete_error_preserves_store (id : String) (username : String)
    (teachers : List String) (store : AnnouncementsCollection) (e : ApiError)
    (h : (delete_announcement id username teachers store).1 = .error e) :
    (delete_announcement id username teachers store).2 = store := by
  cases hauth : teacherExists teachers username
  · simp [delete_announcement, hauth]
  · cases hp : parseObjectId id with
    | none => simp [delete_announcement, hauth, hp]
    | some oid =>
      cases hr : (deleteFirst oid store.docs).1 with
      | none =>
        simp only [delete_announcement, hauth, hp, hr, if_true]
        rw [deleteFirst_none_eq _ _ hr]
      | some d =>
        simp [delete_announcement, hauth, hp, hr] at h

/-- C7: whenever `list_all`, `create`, `update` or `delete` fails with
Unauthorized, BadRequest or NotFound, the announcements store after the call
is exactly the store before it — errors are atomic, with no partial write. -/
theorem C7_errors_leave_store_unchanged (username now id : String)
    (teachers : List String) (store : AnnouncementsCollection)
    (req : AnnouncementCreate) (patch : AnnouncementUpdate) (e : ApiError)
    (he : e = .unauthorized ∨ e = .badRequest ∨ e = .notFound) :
    ((get_all_announcements username teachers store).1 = .error e →
      (get_all_announcements username teachers store).2 = store) ∧
    ((create_announcement req now teachers store).1 = .error e →
      (create_announcement req now teachers store).2 = store) ∧
    ((update_announcement id patch username teachers store).1 = .error e →
      (update_announcement id patch username teachers store).2 = store) ∧
    ((delete_announcement id username teachers store).1 = .error e →
      (delete_announcement id username teachers store).2 = store) :=
  ⟨fun _ => get_all_announcements_preserves_store username teachers store,
   fun h => create_error_preserves_store req now teachers store e h,
   fun h => update_error_preserves_store id patch username teachers store e h,
   fun h => delete_error_preserves_store id username teachers store e h⟩

/-- C7 witness: an unauthorized `update` on an empty teacher registry leaves
the (empty) store untouched. -/
theorem C7_errors_leave_store_unchanged_witness :
    (update_announcement "x" ⟨none, none, none⟩ "u" [] ⟨[], 0⟩).2 = ⟨[], 0⟩ :=
  (C7_errors_leave_store_unchanged "u" "now" "x" [] ⟨[], 0⟩ ⟨"m", none, "e", "u"⟩
    ⟨none, none, none⟩ .unauthorized (Or.inl rfl)).2.2.1 rfl

/-- C8: a `create` by an existing teacher followed by a `list_all` by an
authorized username returns a list containing the record just created, and
that record carries a non-empty identifier string. -/
theorem C8_create_then_list_all (req : AnnouncementCreate) (now username : String)
    (teachers : List String) (store : AnnouncementsCollection)
    (hc : teacherExists teachers req.created_by = true)
    (hu : teacherExists teachers username = true) :
    ∃ doc store',
      create_announcement req now teachers store = (.ok doc, store') ∧
      (get_all_announcements username teachers store').1 = .ok store'.docs ∧
      doc ∈ store'.docs ∧ doc._id ≠ "" := by
  refine ⟨⟨genHexId store.nextOid, req.message, req.start_date, req.end_date,
           req.created_by, now⟩,
          ⟨store.docs ++ [⟨genHexId store.nextOid, req.message, req.start_date,
           req.end_date, req.created_by, now⟩], store.nextOid + 1⟩, ?_, ?_, ?_, ?_⟩
  · simp [create_announcement, hc]
  · simp [get_all_announcements, hu]
  · simp
  · exact genHexId_ne_empty store.nextOid

/-- C8 witness: teacher `"t"` creates an announcement in an empty store and
then fetches all announcements; the created record is in the result with a
non-empty id. -/
theorem C8_create_then_list_all_witness :
    ∃ doc store',
      create_announcement ⟨"hi", none, "2027-01-01", "t"⟩ "2026-10-12" ["t"] ⟨[], 0⟩ =
        (.ok doc, store') ∧
      (get_all_announcements "t" ["t"] store').1 = .ok store'.docs ∧
      doc ∈ store'.docs ∧ doc._id ≠ "" :=
  C8_create_then_list_all ⟨"hi", none, "2027-01-01", "t"⟩ "2026-10-12" "t" ["t"]
    ⟨[], 0⟩ rfl rfl

/-- C9: with an authorized username, `update` and `delete` produce NotFound
only for id strings that parse as 24-hex ObjectIds; on an id that does not
parse, `update` (with a non-empty patch) and `delete` fail with the unhandled
identifier-parse error instead of NotFound. -/
theorem C9_notfound_only_for_wellformed_ids (id : String)
    (patch : AnnouncementUpdate) (username : String) (teachers : List String)
    (store : AnnouncementsCollection) :
    ((update_announcement id patch username teachers store).1 = .error .notFound →
      isValidObjectId id = true) ∧
    ((delete_announcement id username teachers store).1 = .error .notFound →
      isValidObjectId id = true) ∧
    (teacherExists teachers username = true → isValidObjectId id = false →
      (patchIsEmpty patch = false →
        update_announcement id patch username teachers store = (.error .invalidId, store)) ∧
      delete_announcement id username teachers store = (.error .invalidId, store)) := by
  refine ⟨?_, ?_, ?_⟩
  · intro h
    by_contra hinvalid
    rw [Bool.not_eq_true] at hinvalid
    cases hauth : teacherExists teachers username
    · simp [update_announcement, hauth] at h
    · cases hempty : patchIsEmpty patch
      · simp [update_announcement, hauth, hempty, parseObjectId, hinvalid] at h
      · simp [update_announcement, hauth, hempty] at h
  · intro h
    by_contra hinvalid
    rw [Bool.not_eq_true] at hinvalid
    cases hauth : teacherExists teachers username
    · simp [delete_announcement, hauth] at h
    · simp [delete_announcement, hauth, parseObjectId, hinvalid] at h
  · intro hauth hinvalid
    constructor
    · intro hempty
      simp [update_announcement, hauth, hempty, parseObjectId, hinvalid]
    · simp [delete_announcement, hauth, parseObjectId, hinvalid]

/-- C9 witness: id `"zz"` does not parse; with teacher `"t"`, `update` with a
non-empty patch and `delete` both fail with the parse error, not NotFound. -/
theorem C9_notfound_only_for_wellformed_ids_witness :
    update_announcement "zz" ⟨some "m", none, none⟩ "t" ["t"] ⟨[], 0⟩ =
      (.error .invalidId, ⟨[], 0⟩) ∧
    delete_announcement "zz" "t" ["t"] ⟨[], 0⟩ = (.error .invalidId, ⟨[], 0⟩) :=
  ⟨((C9_notfound_only_for_wellformed_ids "zz" ⟨some "m", none, none⟩ "t" ["t"]
      ⟨[], 0⟩).2.2 rfl rfl).1 rfl,
   ((C9_notfound_only_for_wellformed_ids "zz" ⟨some "m", none, none⟩ "t" ["t"]
      ⟨[], 0⟩).2.2 rfl rfl).2⟩

/-- `keepsDates` is reflexive, pointwise on lists. -/
theorem forall₂_keepsDates_refl (l : List Announcement) :
    List.Forall₂ keepsDates l l := by
  induction l with
  | nil => exact List.Forall₂.nil
  | cons a rest ih => exact List.Forall₂.cons ⟨rfl, fun h => h⟩ ih

/-- `keepsDates` is transitive, pointwise on lists. -/
theorem forall₂_keepsDates_trans {l₁ l₂ l₃ : List Announcement}
    (h₁ : List.Forall₂ keepsDates l₁ l₂) (h₂ : List.Forall₂ keepsDates l₂ l₃) :
    List.Forall₂ keepsDates l₁ l₃ := by
  induction h₁ generalizing l₃ with
  | nil => exact h₂
  | cons hab hrest ih =>
    cases h₂ with
    | cons hbc hrest₂ =>
      exact List.Forall₂.cons ⟨hab.1.trans hbc.1, fun h => hbc.2 (hab.2 h)⟩ (ih hrest₂)

/-- Applying a `"$set"` patch keeps the id and never clears `start_date`: a
provided value overwrites it with a non-null value, an absent one leaves it
as it was. -/
theorem keepsDates_applyPatch (patch : AnnouncementUpdate) (a : Announcement) :
    keepsDates a (applyPatch patch a) := by
  refine ⟨rfl, ?_⟩
  intro h
  cases hs : patch.start_date <;> simp [applyPatch, hs, h]

/-- `update_one` relates the old and new document lists pointwise by
`keepsDates`. -/
theorem updateFirst_keepsDates (oid : String) (patch : AnnouncementUpdate)
    (docs : List Announcement) :
    List.Forall₂ keepsDates docs (updateFirst oid (applyPatch patch) docs).2 := by
  induction docs with
  | nil => exact List.Forall₂.nil
  | cons a rest ih =>
    by_cases hid : a._id = oid
    · simp only [updateFirst, if_pos hid]
      exact List.Forall₂.cons (keepsDates_applyPatch patch a) (forall₂_keepsDates_refl rest)
    · simp only [updateFirst, if_neg hid]
      exact List.Forall₂.cons ⟨rfl, fun h => h⟩ ih

/-- One request to the update endpoint relates the old and new stores
pointwise by `keepsDates`, whether it succeeds or fails. -/
theorem update_announcement_keepsDates (id : String) (patch : AnnouncementUpdate)
    (username : String) (teachers : List String) (store : AnnouncementsCollection) :
    List.Forall₂ keepsDates store.docs
      (update_announcement id patch username teachers store).2.docs := by
  cases hauth : teacherExists teachers username
  · simp only [update_announcement, hauth, Bool.false_eq_true, if_false]
    exact forall₂_keepsDates_refl _
  · cases hempty : patchIsEmpty patch
    · cases hp : parseObjectId id with
      | none =>
        simp only [update_announcement, hauth, hempty, hp, Bool.false_eq_true,
          if_false, if_true]
        exact forall₂_keepsDates_refl _
      | some oid =>
        cases hr : (updateFirst oid (applyPatch patch) store.docs).1 with
        | none =>
          simp only [update_announcement, hauth, hempty, hp, hr, Bool.false_eq_true,
            if_false, if_true]
          exact updateFirst_keepsDates oid patch store.docs
        | some d =>
          simp only [update_announcement, hauth, hempty, hp, hr, Bool.false_eq_true,
            if_false, if_true]
          exact updateFirst_keepsDates oid patch store.docs
    · simp only [update_announcement, hauth, hempty, if_true]
      exact forall₂_keepsDates_refl _

/-- C10: no sequence of update requests can clear a field.  Each stored
announcement keeps its identifier, and once its `start_date` holds a non-null
value it holds some non-null value after every further update; `message` and
`end_date` are total `String` fields of the stored document (never null), so
no field of an announcement can ever be unset through the update endpoint. -/
theorem C10_update_never_unsets_fields (teachers : List String)
    (events : List (String × AnnouncementUpdate × String))
    (store : AnnouncementsCollection) :
    List.Forall₂ keepsDates store.docs (runUpdates teachers events store).docs := by
  induction events generalizing store with
  | nil => exact forall₂_keepsDates_refl _
  | cons ev rest ih =>
    have hstep := update_announcement_keepsDates ev.1 ev.2.1 ev.2.2 teachers store
    have htail := ih (update_announcement ev.1 ev.2.1 ev.2.2 teachers store).2
    exact forall₂_keepsDates_trans hstep htail

end Announcements
